import Mathlib

/-!
Verification of the Obscura OS SDK core (Proof Lifecycle Engine and
Stealth Address & Amount Obfuscation Engine) against its natural-language
specification.  The repository ships only interface declarations,
documentation and examples; the executable core is absent from the
source tree, so every operation below is modelled from the spec
(`spec.md`, `docs/ARCHITECTURE.md`, the README API reference and the
examples) and each definition's doc comment records what is missing and
which part of the spec it follows.
-/

/-- Modelled from the spec: the `ProofSystem` identifier
(`groth16 | plonk | stark`); the implementation is absent from the
source tree, the type is declared in the README API reference. -/
inductive ProofSystem
  | groth16
  | plonk
  | stark
  deriving DecidableEq, Repr

/-- Modelled from the spec: the `ProofType` identifier
(`ownership | balance | transaction | identity`). -/
inductive ProofType
  | ownership
  | balance
  | transaction
  | identity
  deriving DecidableEq, Repr

/-- Modelled from the spec: the status values tracked by the
ProofLifecycleStore (`pending, ready, verified, expired, failed`). -/
inductive ProofStatus
  | pending
  | ready
  | verified
  | expired
  | failed
  deriving DecidableEq, Repr

/-- Modelled from the spec: the SDK-wide error hierarchy of §7 and
`docs/ARCHITECTURE.md` (Errors section); every public operation fails
with one of these kinds. -/
inductive ObscuraErrorKind
  | networkError
  | validationError
  | authenticationError
  | constraintViolation
  | proverBackendError
  | proofExpired
  | invalidProofFormat
  | unsupportedProofSystem
  | cryptoDerivation
  | commitmentMismatch
  deriving DecidableEq, Repr

/-- Modelled from the spec: the machine-readable `code` field carried by
every error in the `ObscuraError` hierarchy; the three codes documented
in `docs/ARCHITECTURE.md` are `NETWORK_ERROR`, `VALIDATION_ERROR` and
`AUTH_ERROR`, the remaining kinds carry their own nonempty codes. -/
def errorCode : ObscuraErrorKind → String
  | .networkError => "NETWORK_ERROR"
  | .validationError => "VALIDATION_ERROR"
  | .authenticationError => "AUTH_ERROR"
  | .constraintViolation => "CONSTRAINT_VIOLATION"
  | .proverBackendError => "PROVER_BACKEND_ERROR"
  | .proofExpired => "PROOF_EXPIRED"
  | .invalidProofFormat => "INVALID_PROOF_FORMAT"
  | .unsupportedProofSystem => "UNSUPPORTED_PROOF_SYSTEM"
  | .cryptoDerivation => "CRYPTO_DERIVATION_ERROR"
  | .commitmentMismatch => "COMMITMENT_MISMATCH"

/-- Modelled from the spec: an error instance of the `ObscuraError`
hierarchy, a kind (which determines the string `code`) together with
optional structured details. -/
structure ObscuraError where
  kind : ObscuraErrorKind
  details : Option (List (String × String)) := none
  deriving DecidableEq, Repr

/-- The `code` field of an `ObscuraError`, derived from its kind. -/
def ObscuraError.code (e : ObscuraError) : String :=
  errorCode e.kind

/-- Modelled from the spec: a `ProofRequest` (README API reference and
spec §3): a claim type, a public `claim` key/value mapping, a
`privateInputs` key/value mapping and an optional proof system. -/
structure ProofRequest where
  type : ProofType
  claim : List (String × String)
  privateInputs : List (String × String)
  proofSystem : Option ProofSystem
  deriving DecidableEq, Repr

/-- Modelled from the spec: a `Proof` record (spec §3 and the README
`Proof` interface): opaque `proofBytes`, the ordered `publicInputs`
derived from the claim, the content-addressed `verificationKey`, the
proof system and the timestamps.  Status and id live in the
ProofLifecycleStore (spec §4.6), not in the record. -/
structure Proof where
  proofBytes : Nat
  publicInputs : List String
  verificationKey : Nat
  proofSystem : ProofSystem
  createdAt : Nat
  expiresAt : Option Nat
  deriving DecidableEq, Repr

/-- Modelled from the spec: required public claim fields per proof type
(spec §4.1 enumerates `balance` and `identity`; `ownership` and
`transaction` follow the examples in the source material). -/
def requiredClaimFields : ProofType → List String
  | .ownership => ["asset"]
  | .balance => ["minBalance", "token"]
  | .transaction => ["minAmount"]
  | .identity => ["ageOver", "kycLevel"]

/-- Modelled from the spec: required private input fields per proof type
(spec §4.1). -/
def requiredPrivateFields : ProofType → List String
  | .ownership => ["address", "signature"]
  | .balance => ["address", "signature"]
  | .transaction => ["transactionHash"]
  | .identity => ["dateOfBirth", "country", "kycSignature"]

/-- Modelled from the spec: the RequestValidator (spec §4.1).  The
implementation is absent from the source tree; per the spec it checks
the fixed per-type required field sets and fails with a
`ValidationError`, with no side effects. -/
def validate (r : ProofRequest) : Except ObscuraErrorKind Unit :=
  if (requiredClaimFields r.type).all (fun k => (r.claim.lookup k).isSome)
      && (requiredPrivateFields r.type).all
        (fun k => (r.privateInputs.lookup k).isSome) then
    .ok ()
  else
    .error .validationError

/-- Modelled from the spec: the documented configuration default used
when `proofSystem` is omitted (spec §4.3 and §9 require an explicit,
documented default; this development fixes it to Groth16). -/
def defaultProofSystem : ProofSystem :=
  .groth16

/-- Numeric tag of a proof system, used by the content-addressing of
verification keys and the proof byte encoding. -/
def sysTag : ProofSystem → Nat
  | .groth16 => 0
  | .plonk => 1
  | .stark => 2

/-- Numeric tag of a proof type. -/
def typeTag : ProofType → Nat
  | .ownership => 0
  | .balance => 1
  | .transaction => 2
  | .identity => 3

/-- Modelled from the spec: the content-addressed verification key for a
`(type, proofSystem)` pair (spec §3: immutable and content-addressed,
hence a pure function of the pair). -/
def vkOf (t : ProofType) (s : ProofSystem) : Nat :=
  1000 + typeTag t * 10 + sysTag s

/-- Fold a string into a number; building block of the modelled proof
byte encoding. -/
def hashStr (s : String) : Nat :=
  s.data.foldl (fun a c => a * 256 + c.toNat) 7

/-- Modelled from the spec: the opaque, system-specific proof byte
encoding produced by the Prover Backend.  The backend is an absent
collaborator (spec §6); proof bytes are modelled as a deterministic
function of the public data `(system, verificationKey, publicInputs)`,
the zero-knowledge idealization that a proof is simulatable from public
data alone.  The encoding is offset by one so that well-formed proof
bytes are never zero. -/
def mkProofBytes (s : ProofSystem) (vk : Nat) (inputs : List String) : Nat :=
  1 + inputs.foldl (fun a t => a * 1000003 + hashStr t) (sysTag s * 31 + vk)

/-- Modelled from the spec: `adapter.verify` (spec §4.3/§4.5), a pure
recomputation of validity from `(proofBytes, publicInputs,
verificationKey)`. -/
def cryptoVerify (s : ProofSystem) (vk : Nat) (inputs : List String)
    (bytes : Nat) : Bool :=
  bytes == mkProofBytes s vk inputs

/-- Modelled from the spec: the configured type-specific proof TTL
(spec §4.4: `expiresAt = createdAt + configuredTTL`, shorter for
identity/KYC proofs). -/
def ttlOf : ProofType → Nat
  | .ownership => 3600
  | .balance => 3600
  | .transaction => 3600
  | .identity => 600

/-- Modelled from the spec: construction of the `Proof` record from a
validated request (spec §4.4): `publicInputs` is the ordered sequence of
claim values, `status=ready`, `createdAt=now`,
`expiresAt = createdAt + configuredTTL`. -/
def mkProof (r : ProofRequest) (now : Nat) : Proof :=
  let s := r.proofSystem.getD defaultProofSystem
  let pins := r.claim.map Prod.snd
  let vk := vkOf r.type s
  { proofBytes := mkProofBytes s vk pins
    publicInputs := pins
    verificationKey := vk
    proofSystem := s
    createdAt := now
    expiresAt := some (now + ttlOf r.type) }

/-- Modelled from the spec: the outcome of one Prover Backend call, a
structured result distinguishing success, transient failure and
constraint violation (spec §6). -/
inductive BackendOutcome
  | success
  | transientFailure
  | constraintViolation
  deriving DecidableEq, Repr

/-- Modelled from the spec: the bounded retry loop of the proof
generator (spec §5): at most `fuel` further attempts, transient backend
failures retried, constraint violations fatal on first sight.  Returns
the result together with the total number of backend attempts made. -/
def attemptLoop (script : Nat → BackendOutcome) (p : Proof) :
    Nat → Nat → Except ObscuraErrorKind Proof × Nat
  | 0, used => (.error .proverBackendError, used)
  | fuel + 1, used =>
    match script used with
    | .success => (.ok p, used + 1)
    | .constraintViolation => (.error .constraintViolation, used + 1)
    | .transientFailure => attemptLoop script p fuel (used + 1)

/-- Modelled from the spec: `generateProof` against an explicit Prover
Backend behaviour (spec §4.4): validate, build the witness, call the
backend with at most 3 total attempts.  `script n` is the backend's
outcome on attempt number `n` (0-based).  Returns the result and the
number of attempts made. -/
def generateProofWith (script : Nat → BackendOutcome) (r : ProofRequest)
    (now : Nat) : Except ObscuraErrorKind Proof × Nat :=
  match validate r with
  | .error e => (.error e, 0)
  | .ok () => attemptLoop script (mkProof r now) 3 0

/-- Modelled from the spec: `generateProof` under an honest, available
Prover Backend (every attempt succeeds). -/
def generateProof (r : ProofRequest) (now : Nat) :
    Except ObscuraErrorKind Proof :=
  (generateProofWith (fun _ => .success) r now).1

/-- Modelled from the spec: structural well-formedness of a proof record
(spec §4.5 distinguishes structurally malformed input); modelled proof
byte encodings are always positive, a zero marks malformed bytes. -/
def wellFormed (p : Proof) : Bool :=
  p.proofBytes != 0

/-- Modelled from the spec: `verifyProof` (spec §4.5): fails with
`InvalidProofFormatError` on structurally malformed input, fails with
`ProofExpiredError` whenever `now > expiresAt` - before, and
independently of, cryptographic verification - and otherwise returns
the recomputed cryptographic validity. -/
def verifyProof (p : Proof) (now : Nat) : Except ObscuraErrorKind Bool :=
  if !wellFormed p then
    .error .invalidProofFormat
  else
    match p.expiresAt with
    | some e =>
      if e < now then .error .proofExpired
      else .ok (cryptoVerify p.proofSystem p.verificationKey p.publicInputs
        p.proofBytes)
    | none => .ok (cryptoVerify p.proofSystem p.verificationKey p.publicInputs
        p.proofBytes)

/-- Modelled from the spec: the ProofLifecycleStore contents, a mapping
`id -> (Proof, status)` (spec §4.6). -/
def ProofStore : Type :=
  List (String × (Proof × ProofStatus))

/-- Modelled from the spec: `getProofStatus` with lazy expiration
(spec §4.6): on read, if `now > expiresAt` and the stored status is
`ready` or `verified`, the returned status is `expired`.  The store is
read, never written: the expired transition exists only in the returned
value. -/
def getProofStatus (store : ProofStore) (id : String) (now : Nat) :
    Option ProofStatus :=
  (store.lookup id).map fun ps =>
    match ps.1.expiresAt with
    | some e =>
      if e < now && (ps.2 == .ready || ps.2 == .verified) then .expired
      else ps.2
    | none => ps.2

/-- Modelled from the spec: the two proof export formats
(`json | calldata`, README API reference). -/
inductive ExportFormat
  | json
  | calldata
  deriving DecidableEq, Repr

/-- Modelled from the spec: one atom of a serialized proof document.
JSON distinguishes string, number and null atoms; an export is the list
of its atoms in document order. -/
inductive JsonAtom
  | str (s : String)
  | num (n : Nat)
  | sys (s : ProofSystem)
  | nul
  deriving DecidableEq, Repr

/-- Modelled from the spec: `exportProof` (spec §6): the `json` format
is self-describing and carries proof bytes, publicInputs,
verificationKey, proofSystem and the timestamps; the `calldata` format
is the system-tagged byte packing of proof bytes and publicInputs. -/
def exportProof (p : Proof) : ExportFormat → List JsonAtom
  | .json =>
    [.str "proof", .num p.proofBytes,
     .str "verificationKey", .num p.verificationKey,
     .str "proofSystem", .sys p.proofSystem,
     .str "createdAt", .num p.createdAt,
     .str "expiresAt",
     (match p.expiresAt with | some e => .num e | none => .nul),
     .str "publicInputs"] ++ p.publicInputs.map .str
  | .calldata =>
    [.sys p.proofSystem, .num p.proofBytes] ++ p.publicInputs.map .str

/-- Recover the string atoms of a document tail as public inputs;
helper of `importProof`. -/
def atomsToStrings : List JsonAtom → Option (List String)
  | [] => some []
  | .str s :: rest => (atomsToStrings rest).map (s :: ·)
  | _ => none

/-- Modelled from the spec: the JSON proof import, the partial inverse
of `exportProof` in the `json` format required by the round-trip law of
spec §6. -/
def importProof : List JsonAtom → Option Proof
  | .str "proof" :: .num pb :: .str "verificationKey" :: .num vk ::
      .str "proofSystem" :: .sys s :: .str "createdAt" :: .num ca ::
      .str "expiresAt" :: expAtom :: .str "publicInputs" :: rest =>
    match expAtom with
    | .num e =>
      (atomsToStrings rest).map fun pins =>
        { proofBytes := pb, publicInputs := pins, verificationKey := vk
          proofSystem := s, createdAt := ca, expiresAt := some e }
    | .nul =>
      (atomsToStrings rest).map fun pins =>
        { proofBytes := pb, publicInputs := pins, verificationKey := vk
          proofSystem := s, createdAt := ca, expiresAt := none }
    | _ => none
  | _ => none

/-- The literal string values carried by an export document; a value
`v` of the originating request occurs literally in the export exactly
when `v` is among these atoms. -/
def exportStrings (p : Proof) (f : ExportFormat) : List String :=
  (exportProof p f).filterMap fun a =>
    match a with
    | .str s => some s
    | _ => none

/-- Modelled from the spec: the prime order of the cryptographic group
underlying the stealth-address and commitment arithmetic.  The curve
library is an absent collaborator; the group is modelled as the
additive group of the prime field `ZMod stealthOrder`. -/
def stealthOrder : Nat :=
  7919

instance : Fact (Nat.Prime stealthOrder) :=
  ⟨by norm_num [stealthOrder]⟩

/-- Scalars and group elements of the modelled stealth group. -/
abbrev Scalar : Type :=
  ZMod stealthOrder

/-- Modelled from the spec: the fixed base point `G`; in the additive
model a generator of `ZMod stealthOrder`. -/
def basePoint : Scalar :=
  1

/-- Modelled from the spec: scalar multiplication `k·P` of the group. -/
def pointMul (k point : Scalar) : Scalar :=
  k * point

/-- Modelled from the spec: the hash-to-scalar `H` of the stealth
protocol (spec §4.7), idealized as a fixed injective mixing function
(the protocol's unlinkability invariant assumes `H` collision-free). -/
def hashToScalar (x : Scalar) : Scalar :=
  3 * x + 5

/-- Modelled from the spec: the sender side of the dual-key stealth
protocol (spec §4.7): from the recipient's public keys `(Bv, Bs)` and
an ephemeral scalar `r`, publish `R = r·G` and pay to the one-time
address `P = H(r·Bv)·G + Bs`.  Returns `(R, P)`. -/
def senderStealth (bv bs r : Scalar) : Scalar × Scalar :=
  let bigR := pointMul r basePoint
  let sharedSecret := pointMul r bv
  (bigR, pointMul (hashToScalar sharedSecret) basePoint + bs)

/-- Modelled from the spec: `deriveAddress` (spec §4.7), the
recipient-side symmetric computation: from the viewing private key `v`,
the spending public key `Bs` and the published `R`, compute
`S' = v·R` and `P' = H(S')·G + Bs`. -/
def deriveAddress (v bs bigR : Scalar) : Scalar :=
  pointMul (hashToScalar (pointMul v bigR)) basePoint + bs

/-- Modelled from the spec: an `ObfuscatedAmount` (spec §3/§4.8): a
binding commitment plus the `(amount, blinding)` pair encrypted under
the recipient's key. -/
structure ObfuscatedAmount where
  commitment : Scalar
  payloadAmount : Scalar
  payloadBlinding : Scalar
  deriving DecidableEq, Repr

/-- Modelled from the spec: the independent second generator `H` of the
commitment `C = amount·H + b·G` (spec §4.8). -/
def amountGen : Scalar :=
  2

/-- Modelled from the spec: the generator `G` as used by the commitment
arithmetic. -/
def blindGen : Scalar :=
  3

/-- Key stream applied to the amount slot by the modelled stream
encryption of the payload. -/
def keyStreamA (k : Scalar) : Scalar :=
  3 * k + 1

/-- Key stream applied to the blinding slot by the modelled stream
encryption of the payload. -/
def keyStreamB (k : Scalar) : Scalar :=
  5 * k + 2

/-- Modelled from the spec: `obfuscateAmount` (spec §4.8): commit
`C = amount·H + b·G` with blinding factor `b` and encrypt `(amount, b)`
under the recipient key `k` (stream encryption modelled by key-derived
additive pads). -/
def obfuscateAmount (amount b k : Scalar) : ObfuscatedAmount :=
  { commitment := amount * amountGen + b * blindGen
    payloadAmount := amount + keyStreamA k
    payloadBlinding := b + keyStreamB k }

/-- Modelled from the spec: `deobfuscateAmount` (spec §4.8): decrypt
the payload with `k`, recompute the commitment from the recovered pair
and fail closed with `CommitmentMismatchError` unless it equals the
stored commitment. -/
def deobfuscateAmount (o : ObfuscatedAmount) (k : Scalar) :
    Except ObscuraErrorKind Scalar :=
  let amount := o.payloadAmount - keyStreamA k
  let b := o.payloadBlinding - keyStreamB k
  if amount * amountGen + b * blindGen = o.commitment then
    .ok amount
  else
    .error .commitmentMismatch

/-- Modelled from the spec: the address masking levels of
`docs/ARCHITECTURE.md` (`basic | enhanced | maximum`). -/
inductive MaskLevel
  | basic
  | enhanced
  | maximum
  deriving DecidableEq, Repr

/-- The last `n` characters of a character list. -/
def lastChars (n : Nat) (cs : List Char) : List Char :=
  cs.drop (cs.length - n)

/-- Modelled from the spec: `maskAddress` per the masking levels
documented in `docs/ARCHITECTURE.md` and the basic-usage example:
`basic` keeps the first six and last four characters around an
ellipsis (`0x742d...Ab23`), `enhanced` keeps the first four and last
two around four asterisks (`0x74****23`), `maximum` keeps only the
`0x` marker (`0x****...****`). -/
def maskAddress (addr : String) : MaskLevel → String
  | .basic =>
    ⟨addr.data.take 6 ++ ['.', '.', '.'] ++ lastChars 4 addr.data⟩
  | .enhanced =>
    ⟨addr.data.take 4 ++ ['*', '*', '*', '*'] ++ lastChars 2 addr.data⟩
  | .maximum =>
    "0x****...****"

/-- Count of masking asterisks in a string. -/
def starCount (s : String) : Nat :=
  s.data.count '*'

/-- A valid balance proof request, the concrete scenario of spec §8. -/
def sampleBalanceRequest : ProofRequest :=
  { type := .balance
    claim := [("minBalance", "10.0"), ("token", "ETH")]
    privateInputs := [("address", "0xabc"), ("signature", "0xsig")]
    proofSystem := some .groth16 }

/-- The same balance request with entirely different private inputs. -/
def sampleBalanceRequestAlt : ProofRequest :=
  { sampleBalanceRequest with
    privateInputs := [("address", "0xother"), ("signature", "0xsig2")] }

/-- A valid ownership proof request whose private `address` value
coincides with the public `collection` claim value. -/
def collidingRequest : ProofRequest :=
  { type := .ownership
    claim := [("asset", "NFT"), ("collection", "0xABCD"), ("tokenId", "42")]
    privateInputs := [("address", "0xABCD"), ("signature", "0xsig")]
    proofSystem := some .groth16 }

/-- The string atoms of the JSON export of the proof generated for
`collidingRequest` at time 0. -/
def collidingExport : List String :=
  match generateProof collidingRequest 0 with
  | .ok p => exportStrings p .json
  | .error _ => []

/-- Modelled proof bytes are strictly positive, hence never the
malformed marker. -/
theorem mkProofBytes_ne_zero (s : ProofSystem) (vk : Nat)
    (inputs : List String) : mkProofBytes s vk inputs ≠ 0 := by
  unfold mkProofBytes
  omega

/-- A generated proof is exactly the record built by `mkProof`. -/
theorem generateProof_ok_eq (r : ProofRequest) (now : Nat) (p : Proof)
    (hgen : generateProof r now = .ok p) : p = mkProof r now := by
  unfold generateProof generateProofWith at hgen
  cases hval : validate r with
  | error err =>
    rw [hval] at hgen
    exact absurd hgen (by simp)
  | ok u =>
    cases u
    rw [hval] at hgen
    simp [attemptLoop] at hgen
    exact hgen.symm

/-- Claim C1: for every valid `ProofRequest` `r`, if `generateProof r`
returns a proof `p` and the current time is at most `p.expiresAt`, then
`verifyProof p` succeeds with `true`. -/
theorem generateProof_verifyProof_roundtrip (r : ProofRequest)
    (now t e : Nat) (p : Proof) (hgen : generateProof r now = .ok p)
    (hexp : p.expiresAt = some e) (ht : t ≤ e) :
    verifyProof p t = .ok true := by
  have hp := generateProof_ok_eq r now p hgen
  subst hp
  have he : now + ttlOf r.type = e := by
    simpa [mkProof] using hexp
  subst he
  have hnotlt : ¬ now + ttlOf r.type < t := Nat.not_lt.mpr ht
  simp [verifyProof, wellFormed, mkProof, cryptoVerify, hnotlt,
    mkProofBytes_ne_zero]

/-- Witness for C1 at the concrete balance request of the spec's §8
scenario: the proof generated at time 0 verifies at time 100. -/
theorem generateProof_verifyProof_roundtrip_witness :
    verifyProof (mkProof sampleBalanceRequest 0) 100 = .ok true :=
  generateProof_verifyProof_roundtrip sampleBalanceRequest 0 100 3600
    (mkProof sampleBalanceRequest 0) rfl rfl (by decide)

/-- Claim C2, counterexample: the claim as stated is false.  For the
valid ownership request `collidingRequest`, whose private `address`
value `0xABCD` coincides with the public `collection` claim value,
proof generation succeeds and the JSON export contains the literal
private value `0xABCD`. -/
theorem exportProof_contains_private_value :
    "0xABCD" ∈ collidingRequest.privateInputs.map Prod.snd ∧
    (generateProof collidingRequest 0).isOk = true ∧
    "0xABCD" ∈ collidingExport := by
  refine ⟨by decide, ?_, ?_⟩ <;> decide

/-- Claim C2, amended: the export never depends on `privateInputs` at
all — two valid requests that are identical except for their
`privateInputs` generate proofs with identical exports in every format;
a private value can therefore occur in an export only when it already
occurs in the public data. -/
theorem exportProof_private_noninterference (r₁ r₂ : ProofRequest)
    (now : Nat) (p₁ p₂ : Proof) (f : ExportFormat)
    (htype : r₁.type = r₂.type) (hclaim : r₁.claim = r₂.claim)
    (hsys : r₁.proofSystem = r₂.proofSystem)
    (h₁ : generateProof r₁ now = .ok p₁)
    (h₂ : generateProof r₂ now = .ok p₂) :
    exportProof p₁ f = exportProof p₂ f := by
  have hp₁ := generateProof_ok_eq r₁ now p₁ h₁
  have hp₂ := generateProof_ok_eq r₂ now p₂ h₂
  subst hp₁
  subst hp₂
  have : mkProof r₁ now = mkProof r₂ now := by
    unfold mkProof
    rw [htype, hclaim, hsys]
  rw [this]

/-- Witness for the amended C2: the spec §8 balance request and its
variant with entirely different private inputs export identically. -/
theorem exportProof_private_noninterference_witness :
    exportProof (mkProof sampleBalanceRequest 0) .json =
      exportProof (mkProof sampleBalanceRequestAlt 0) .json :=
  exportProof_private_noninterference sampleBalanceRequest
    sampleBalanceRequestAlt 0 (mkProof sampleBalanceRequest 0)
    (mkProof sampleBalanceRequestAlt 0) .json rfl rfl rfl rfl rfl

/-- The idealized hash-to-scalar is injective. -/
theorem hashToScalar_injective (x y : Scalar)
    (h : hashToScalar x = hashToScalar y) : x = y := by
  unfold hashToScalar at h
  have h3 : (3 : Scalar) ≠ 0 := by decide
  have := add_right_cancel h
  exact mul_left_cancel₀ h3 this

/-- Claim C3: for a fixed recipient key pair, distinct ephemeral keys
yield distinct one-time addresses, and `deriveAddress` applied with the
recipient's viewing private key `v` to the published ephemeral public
key `R` recovers exactly the one-time address the sender computed.
The recipient's viewing public key is `Bv = v·G`. -/
theorem stealth_unlinkability_and_recovery (v bs r r₁ r₂ : Scalar)
    (hv : v ≠ 0) (hr : r₁ ≠ r₂) :
    (senderStealth (pointMul v basePoint) bs r₁).2 ≠
      (senderStealth (pointMul v basePoint) bs r₂).2 ∧
    deriveAddress v bs (senderStealth (pointMul v basePoint) bs r).1 =
      (senderStealth (pointMul v basePoint) bs r).2 := by
  constructor
  · intro h
    unfold senderStealth pointMul basePoint at h
    simp only [mul_one] at h
    have hh := add_right_cancel h
    have := hashToScalar_injective _ _ hh
    exact hr (mul_right_cancel₀ hv this)
  · unfold senderStealth deriveAddress pointMul basePoint
    ring_nf

/-- Witness for C3 at concrete keys: viewing key 2, spending public key
5, ephemeral keys 3 and 4. -/
theorem stealth_unlinkability_and_recovery_witness :
    (senderStealth (pointMul 2 basePoint) 5 3).2 ≠
      (senderStealth (pointMul 2 basePoint) 5 4).2 ∧
    deriveAddress 2 5 (senderStealth (pointMul 2 basePoint) 5 3).1 =
      (senderStealth (pointMul 2 basePoint) 5 3).2 :=
  stealth_unlinkability_and_recovery 2 5 3 3 4 (by decide) (by decide)

/-- Claim C4: de-obfuscating with the exact key that obfuscated the
amount recovers the amount, and de-obfuscating with any other key fails
closed with `CommitmentMismatchError` instead of returning an amount. -/
theorem obfuscateAmount_roundtrip_and_wrong_key (a b k k' : Scalar) :
    deobfuscateAmount (obfuscateAmount a b k) k = .ok a ∧
    (k' ≠ k →
      deobfuscateAmount (obfuscateAmount a b k) k' =
        .error .commitmentMismatch) := by
  constructor
  · have ha : a + keyStreamA k - keyStreamA k = a := by ring
    have hb : b + keyStreamB k - keyStreamB k = b := by ring
    simp [deobfuscateAmount, obfuscateAmount, ha, hb]
  · intro hne
    unfold deobfuscateAmount obfuscateAmount
    rw [if_neg]
    intro heq
    unfold keyStreamA keyStreamB amountGen blindGen at heq
    have h21 : (21 : Scalar) * (k - k') = 0 := by linear_combination heq
    rcases mul_eq_zero.mp h21 with h | h
    · exact absurd h (by decide)
    · exact hne (sub_eq_zero.mp h).symm

/-- Witness for C4 at amount 11, blinding 7, key 5 and wrong key 6. -/
theorem obfuscateAmount_roundtrip_and_wrong_key_witness :
    deobfuscateAmount (obfuscateAmount 11 7 5) 5 = .ok 11 ∧
    deobfuscateAmount (obfuscateAmount 11 7 5) 6 =
      .error .commitmentMismatch :=
  ⟨(obfuscateAmount_roundtrip_and_wrong_key 11 7 5 6).1,
    (obfuscateAmount_roundtrip_and_wrong_key 11 7 5 6).2 (by decide)⟩

/-- Claim C5: on a well-formed proof whose `expiresAt` lies in the
past, `verifyProof` fails with `ProofExpiredError` even when the proof
bytes are cryptographically valid; the conclusion never reaches
`cryptoVerify`. -/
theorem verifyProof_expired_precedes_crypto (p : Proof) (t e : Nat)
    (hw : wellFormed p = true) (hexp : p.expiresAt = some e)
    (ht : e < t)
    (_hvalid : cryptoVerify p.proofSystem p.verificationKey p.publicInputs
      p.proofBytes = true) :
    verifyProof p t = .error .proofExpired := by
  simp [verifyProof, hw, hexp, ht]

/-- Witness for C5: the proof generated for the spec §8 balance request
at time 0, cryptographically valid, is rejected as expired at time
4000 (its TTL is 3600). -/
theorem verifyProof_expired_precedes_crypto_witness :
    verifyProof (mkProof sampleBalanceRequest 0) 4000 =
      .error .proofExpired :=
  verifyProof_expired_precedes_crypto (mkProof sampleBalanceRequest 0)
    4000 3600 (by decide) rfl (by decide) (by decide)

/-- The retry loop makes at most `fuel` further backend attempts. -/
theorem attemptLoop_attempts_le (script : Nat → BackendOutcome)
    (p : Proof) :
    ∀ fuel used, (attemptLoop script p fuel used).2 ≤ used + fuel := by
  intro fuel
  induction fuel with
  | zero => intro used; simp [attemptLoop]
  | succ k ih =>
    intro used
    unfold attemptLoop
    match script used with
    | .success => simp
    | .constraintViolation => simp
    | .transientFailure =>
      have := ih (used + 1)
      simp only []
      omega

/-- Claim C6: the Prover Backend is called at most 3 times in total;
with exactly 2 transient failures followed by success, `generateProof`
succeeds after exactly 3 attempts, and with a constraint violation it
fails after exactly 1 attempt with no retry. -/
theorem generateProof_retry_policy (r : ProofRequest) (now : Nat)
    (hval : validate r = .ok ())
    (script cscript : Nat → BackendOutcome)
    (h0 : script 0 = .transientFailure) (h1 : script 1 = .transientFailure)
    (h2 : script 2 = .success)
    (hc : cscript 0 = .constraintViolation) :
    generateProofWith script r now = (.ok (mkProof r now), 3) ∧
    generateProofWith cscript r now = (.error .constraintViolation, 1) ∧
    ∀ s : Nat → BackendOutcome, (generateProofWith s r now).2 ≤ 3 := by
  refine ⟨?_, ?_, ?_⟩
  · simp [generateProofWith, hval, attemptLoop, h0, h1, h2]
  · simp [generateProofWith, hval, attemptLoop, hc]
  · intro s
    unfold generateProofWith
    cases validate r with
    | error err => simp
    | ok u => simpa using attemptLoop_attempts_le s (mkProof r now) 3 0

/-- Witness for C6 at the spec §8 balance request, with a backend that
fails transiently on its first two attempts and a backend that reports
a constraint violation immediately. -/
theorem generateProof_retry_policy_witness :
    generateProofWith (fun n => if n < 2 then .transientFailure else .success)
        sampleBalanceRequest 0 =
      (.ok (mkProof sampleBalanceRequest 0), 3) ∧
    generateProofWith (fun _ => .constraintViolation)
        sampleBalanceRequest 0 =
      (.error .constraintViolation, 1) ∧
    ∀ s : Nat → BackendOutcome,
      (generateProofWith s sampleBalanceRequest 0).2 ≤ 3 :=
  generateProof_retry_policy sampleBalanceRequest 0 rfl
    (fun n => if n < 2 then .transientFailure else .success)
    (fun _ => .constraintViolation) rfl rfl rfl rfl

/-- Claim C7: `getProofStatus` applies lazy expiration: whenever the
stored status of a proof is `ready` or `verified` but its `expiresAt`
lies strictly in the past, the status returned on read is `expired`,
while the store itself (a value, never mutated by the read) keeps the
stored status. -/
theorem getProofStatus_lazy_expiration (store : ProofStore) (id : String)
    (p : Proof) (st : ProofStatus) (e now : Nat)
    (hlook : store.lookup id = some (p, st))
    (hexp : p.expiresAt = some e) (hnow : e < now)
    (hst : st = .ready ∨ st = .verified) :
    getProofStatus store id now = some .expired := by
  rcases hst with h | h <;>
    subst h <;>
    simp [getProofStatus, hlook, hexp, hnow]

/-- Witness for C7: a store holding one `ready` proof generated at time
0 with TTL 3600 reports it `expired` when read at time 4000. -/
theorem getProofStatus_lazy_expiration_witness :
    getProofStatus [("proof-1", (mkProof sampleBalanceRequest 0, .ready))]
      "proof-1" 4000 = some .expired :=
  getProofStatus_lazy_expiration
    [("proof-1", (mkProof sampleBalanceRequest 0, .ready))] "proof-1"
    (mkProof sampleBalanceRequest 0) .ready 3600 4000 (by decide) rfl
    (by decide) (Or.inl rfl)

/-- A mapped list of string atoms always parses back to the original
strings. -/
theorem atomsToStrings_map_str (l : List String) :
    atomsToStrings (l.map .str) = some l := by
  induction l with
  | nil => rfl
  | cons hd tl ih => simp [atomsToStrings, ih]

/-- Claim C8: the JSON export is self-describing and lossless: for
every proof `p`, importing the JSON export of `p` yields exactly `p`. -/
theorem exportProof_importProof_json_roundtrip (p : Proof) :
    importProof (exportProof p .json) = some p := by
  obtain ⟨pb, pins, vk, s, ca, exp⟩ := p
  cases exp with
  | some e => simp [exportProof, importProof, atomsToStrings_map_str]
  | none => simp [exportProof, importProof, atomsToStrings_map_str]

/-- Claim C9: `basic` masking keeps the first six characters, an
ellipsis and the last four characters; `enhanced` and `maximum`
replace progressively more of the address with `*` characters (for an
address that itself contains no `*`, the mask introduces 0, 4 and 8
asterisks respectively). -/
theorem maskAddress_levels (addr : String) (h : '*' ∉ addr.data) :
    (maskAddress addr .basic).data =
      addr.data.take 6 ++ "...".data ++ lastChars 4 addr.data ∧
    starCount (maskAddress addr .basic) = 0 ∧
    starCount (maskAddress addr .enhanced) = 4 ∧
    starCount (maskAddress addr .maximum) = 8 := by
  have htake : ∀ n, List.count '*' (addr.data.take n) = 0 := fun n =>
    List.count_eq_zero.mpr fun hm => h (List.mem_of_mem_take hm)
  have hdrop : ∀ n, List.count '*' (addr.data.drop n) = 0 := fun n =>
    List.count_eq_zero.mpr fun hm => h (List.mem_of_mem_drop hm)
  refine ⟨rfl, ?_, ?_, ?_⟩
  · simp [starCount, maskAddress, lastChars, htake, hdrop]
  · simp [starCount, maskAddress, lastChars, htake, hdrop]
  · rfl

/-- Witness for C9 at the documented example address. -/
theorem maskAddress_levels_witness :
    (maskAddress "0x742d35Cc6634C0532925a3b844Bc9e7595f1Ab23" .basic).data =
      "0x742d35Cc6634C0532925a3b844Bc9e7595f1Ab23".data.take 6 ++
        "...".data ++
        lastChars 4 "0x742d35Cc6634C0532925a3b844Bc9e7595f1Ab23".data ∧
    starCount (maskAddress "0x742d35Cc6634C0532925a3b844Bc9e7595f1Ab23"
      .basic) = 0 ∧
    starCount (maskAddress "0x742d35Cc6634C0532925a3b844Bc9e7595f1Ab23"
      .enhanced) = 4 ∧
    starCount (maskAddress "0x742d35Cc6634C0532925a3b844Bc9e7595f1Ab23"
      .maximum) = 8 :=
  maskAddress_levels "0x742d35Cc6634C0532925a3b844Bc9e7595f1Ab23"
    (by decide)

/-- Claim C10: every error of the hierarchy carries a machine-readable
nonempty string code, with `NETWORK_ERROR`, `VALIDATION_ERROR` and
`AUTH_ERROR` for the three documented subclasses; every failure of the
modelled operations is one of these kinds. -/
theorem obscuraError_codes :
    errorCode .networkError = "NETWORK_ERROR" ∧
    errorCode .validationError = "VALIDATION_ERROR" ∧
    errorCode .authenticationError = "AUTH_ERROR" ∧
    ∀ e : ObscuraError, e.code = errorCode e.kind ∧ 0 < e.code.length := by
  refine ⟨rfl, rfl, rfl, fun e => ⟨rfl, ?_⟩⟩
  obtain ⟨k, d⟩ := e
  cases k <;> simp [ObscuraError.code, errorCode] <;> decide
